import Mathlib

/-!
# Magic Session Mixer — verification of the session synchronization core

Shallow embedding of `src/magic_session_mixer.py`. The per-session handler
methods of `AppRow` (`update_volume`, `update_mute`, `update_state`,
`_slide_volume`, `_toogle_mute`) are translated directly from the source.
The session registry, the dispatch of subsystem notifications and the
`toggle_mute` primitive live in the external pycaw library (outside this
repository); those are modelled from the spec and marked as such.

Volumes are embedded as exact rationals, following the spec's data model
(`volume`: real number in [0.0, 1.0]).
-/

namespace MagicMixer

/-- A command issued to the audio subsystem (pycaw write primitives). -/
inductive SubsysCall where
  | writeVolume (value : ℚ)
  | writeMute (value : Bool)
deriving DecidableEq

/-- The tkinter display state of one `AppRow`: the slider variable, the mute
button text and style, the status line style, and whether the frame has been
destroyed. -/
structure Display where
  volume_slider_state : ℚ
  mute_button_state : String
  mute_button_style : String
  status_line_style : String
  destroyed : Bool
deriving DecidableEq

/-- One `AppRow`: `volume` and `mute` are the pycaw `MagicSession` properties
reading the audio subsystem's ground truth; `display` is the tkinter state. -/
structure AppRow where
  app_name : String
  volume : ℚ
  mute : Bool
  display : Display
deriving DecidableEq

/-- The `pycaw.constants.AudioSessionState` values, delivered as raw integers. -/
def AudioSessionState.Inactive : Int := 0

def AudioSessionState.Active : Int := 1

def AudioSessionState.Expired : Int := 2

/-- Source `AppRow._slide_volume` (src lines 209–217): when the slider moves,
compute `new_volume = value / 100`; if it differs from the subsystem's
current volume, write it to the subsystem (`self.volume = new_volume`). -/
def AppRow.slide_volume (row : AppRow) (value : ℚ) : AppRow × List SubsysCall :=
  let new_volume := value / 100
  if row.volume ≠ new_volume then
    ({ row with volume := new_volume }, [SubsysCall.writeVolume new_volume])
  else
    (row, [])

/-- Source `AppRow.update_volume` (src lines 163–172): the external-change callback
sets the slider variable to `new_volume * 100`. A ttk `Scale` invokes its
`command` callback on programmatic variable changes as well, so the set
re-enters `_slide_volume` at the new position. -/
def AppRow.update_volume (row : AppRow) (new_volume : ℚ) : AppRow × List SubsysCall :=
  let row' : AppRow :=
    { row with display := { row.display with volume_slider_state := new_volume * 100 } }
  row'.slide_volume (new_volume * 100)

/-- Source `AppRow.update_mute` (src lines 174–186): set the button icon and style
from the new mute value. -/
def AppRow.update_mute (row : AppRow) (new_mute : Bool) : AppRow :=
  if new_mute then
    { row with display := { row.display with
        mute_button_state := "🔈", mute_button_style := "Muted.TButton" } }
  else
    { row with display := { row.display with
        mute_button_state := "🔊", mute_button_style := "Unmuted.TButton" } }

/-- Source `AppRow.update_state` (src lines 188–207): recolour the status line on
`Inactive`/`Active`; on `Expired` reset the style and destroy the frame.
Any other value falls through the `if`/`elif` chain unchanged. -/
def AppRow.update_state (row : AppRow) (new_state : Int) : AppRow :=
  if new_state = AudioSessionState.Inactive then
    { row with display := { row.display with status_line_style := "Inactive.TFrame" } }
  else if new_state = AudioSessionState.Active then
    { row with display := { row.display with status_line_style := "Active.TFrame" } }
  else if new_state = AudioSessionState.Expired then
    { row with display := { row.display with status_line_style := "TFrame", destroyed := true } }
  else
    row

/-- Modelled from the spec: `MagicSession.toggle_mute` is provided by the
external pycaw library, not by code in this repository. Per §4.3 it reads the
current `muted` value, issues the inverted value to the audio subsystem, and
returns the new value. -/
def AppRow.toggle_mute (row : AppRow) : AppRow × Bool × List SubsysCall :=
  let new_mute := !row.mute
  ({ row with mute := new_mute }, new_mute, [SubsysCall.writeMute new_mute])

/-- Source `AppRow._toogle_mute` (src lines 219–223): toggle via pycaw, then apply
the returned value to the display immediately (optimistic update). -/
def AppRow.toogle_mute (row : AppRow) : AppRow × Bool × List SubsysCall :=
  let r := row.toggle_mute
  (r.1.update_mute r.2.1, r.2.1, r.2.2)

/-- Modelled from the spec: the registry of live sessions is maintained by
pycaw's `MagicManager`, outside this repository. Per §4.1 it maps each
session identity to its exclusively-owned handle. -/
structure SessionRegistry where
  rows : List (String × AppRow)
deriving DecidableEq

/-- Registry lookup: first entry with the given identity (§4.1 `lookup`). -/
def SessionRegistry.lookup (reg : SessionRegistry) (id : String) : Option AppRow :=
  (reg.rows.find? (fun p => p.1 == id)).map (fun p => p.2)

/-- Replace the entry for `id` (first match) with `row`. -/
def setRowAux : List (String × AppRow) → String → AppRow → List (String × AppRow)
  | [], _, _ => []
  | p :: rest, id, row =>
    if p.1 == id then (p.1, row) :: rest else p :: setRowAux rest id row

def SessionRegistry.setRow (reg : SessionRegistry) (id : String) (row : AppRow) :
    SessionRegistry :=
  ⟨setRowAux reg.rows id row⟩

/-- Modelled from the spec: `SessionRegistry.remove` (§4.1) — drop the entry
for `id`; a no-op when the identity is absent. -/
def SessionRegistry.remove (reg : SessionRegistry) (id : String) : SessionRegistry :=
  ⟨reg.rows.filter (fun p => !(p.1 == id))⟩

/-- A notification event from the audio subsystem (§4.2 event kinds that
mutate an existing session). -/
inductive MixerEvent where
  | volumeChanged (id : String) (volume : ℚ)
  | muteChanged (id : String) (muted : Bool)
  | stateChanged (id : String) (status : Int)
deriving DecidableEq

def MixerEvent.ident : MixerEvent → String
  | .volumeChanged id _ => id
  | .muteChanged id _ => id
  | .stateChanged id _ => id

/-- Modelled from the spec: dispatch of `OnSimpleVolumeChanged` to the row
registered for `id` is done by pycaw's `MagicManager`; an event for an
identity absent from the registry is dropped with a logged anomaly (§4.2).
The callback payload is the value the subsystem just changed to, so the
ground-truth `volume` field reads `v` when the handler runs. -/
def onVolumeChanged (reg : SessionRegistry) (id : String) (v : ℚ) :
    SessionRegistry × List SubsysCall :=
  match reg.lookup id with
  | none => (reg, [])
  | some row =>
    let r := AppRow.update_volume { row with volume := v } v
    (reg.setRow id r.1, r.2)

/-- Modelled from the spec: dispatch of `OnSimpleVolumeChanged` mute events,
as for `onVolumeChanged`. -/
def onMuteChanged (reg : SessionRegistry) (id : String) (m : Bool) :
    SessionRegistry :=
  match reg.lookup id with
  | none => reg
  | some row => reg.setRow id (AppRow.update_mute { row with mute := m } m)

/-- Modelled from the spec: dispatch of `OnStateChanged`; on `Expired` the
`MagicManager` removes the session from the registry and the display element
is torn down (the row's `update_state` destroys the frame). The returned
list records the identities whose display was torn down. -/
def onStateChanged (reg : SessionRegistry) (id : String) (st : Int) :
    SessionRegistry × List String :=
  match reg.lookup id with
  | none => (reg, [])
  | some row =>
    let row1 := row.update_state st
    if st = AudioSessionState.Expired then (reg.remove id, [id])
    else (reg.setRow id row1, [])

/-- One notification step: registry after, subsystem calls issued, teardowns
emitted. -/
def stepEvent (reg : SessionRegistry) : MixerEvent → SessionRegistry × List SubsysCall × List String
  | .volumeChanged id v =>
    let r := onVolumeChanged reg id v
    (r.1, r.2, [])
  | .muteChanged id m => (onMuteChanged reg id m, [], [])
  | .stateChanged id st =>
    let r := onStateChanged reg id st
    (r.1, [], r.2)

/-- Process a sequence of notifications in delivery order. -/
def runEvents (reg : SessionRegistry) (es : List MixerEvent) : SessionRegistry :=
  es.foldl (fun r e => (stepEvent r e).1) reg

/-- Errors of the command path (§7): `SessionGone` when a user command races
session expiry. -/
inductive CmdError where
  | SessionGone
deriving DecidableEq

/-- Modelled from the spec: the `SessionGone` guard of §4.3 — a user command
for an identity absent from the registry fails silently with no subsystem
call. The live branch is the repository's `AppRow._slide_volume`, driven by
the slider position (the requested volume times 100). -/
def CommandGateway.set_volume (reg : SessionRegistry) (id : String) (value : ℚ) :
    SessionRegistry × List SubsysCall × Except CmdError Unit :=
  match reg.lookup id with
  | none => (reg, [], Except.error CmdError.SessionGone)
  | some row =>
    let r := row.slide_volume value
    (reg.setRow id r.1, r.2, Except.ok ())

/-- Modelled from the spec: the `SessionGone` guard of §4.3 for mute; the
live branch is the repository's `AppRow._toogle_mute`. -/
def CommandGateway.toggle_mute (reg : SessionRegistry) (id : String) :
    SessionRegistry × List SubsysCall × Except CmdError Bool :=
  match reg.lookup id with
  | none => (reg, [], Except.error CmdError.SessionGone)
  | some row =>
    let r := row.toogle_mute
    (reg.setRow id r.1, r.2.2, Except.ok r.2.1)

/-! ## Helper lemmas -/

lemma hundredth (v : ℚ) : v * 100 / 100 = v := by
  rw [mul_div_assoc]
  norm_num

/-- When the handler's ground-truth volume already equals the payload (the
subsystem just changed to it), `update_volume` only moves the slider: the
re-entered `_slide_volume` guard sees no difference and issues no write. -/
lemma update_volume_confirmed (row : AppRow) (v : ℚ) :
    AppRow.update_volume { row with volume := v } v =
      ({ row with
          volume := v,
          display := { row.display with volume_slider_state := v * 100 } }, []) := by
  unfold AppRow.update_volume AppRow.slide_volume
  simp [hundredth]

lemma find_filter_none (id : String) (l : List (String × AppRow)) :
    (l.filter (fun p => !(p.1 == id))).find? (fun p => p.1 == id) = none := by
  induction l with
  | nil => rfl
  | cons p rest ih =>
    by_cases h : p.1 = id
    · simp [List.filter_cons, h, ih]
    · simp [List.filter_cons, h, List.find?_cons, ih]

lemma lookup_remove_self (reg : SessionRegistry) (id : String) :
    (reg.remove id).lookup id = none := by
  unfold SessionRegistry.remove SessionRegistry.lookup
  simp [find_filter_none]

lemma lookup_setRowAux (id : String) (row' : AppRow) (l : List (String × AppRow))
    (h : ((l.find? (fun p => p.1 == id)).map (fun p => p.2)).isSome) :
    ((setRowAux l id row').find? (fun p => p.1 == id)).map (fun p => p.2) = some row' := by
  induction l with
  | nil => simp at h
  | cons p rest ih =>
    by_cases hp : p.1 = id
    · simp [setRowAux, hp]
    · rw [List.find?_cons_of_neg _ (by simp [hp])] at h
      simp only [setRowAux, beq_iff_eq, hp, if_false]
      rw [List.find?_cons_of_neg _ (by simp [hp])]
      exact ih h

lemma lookup_setRow_self (reg : SessionRegistry) (id : String) (row row' : AppRow)
    (h : reg.lookup id = some row) :
    (reg.setRow id row').lookup id = some row' := by
  unfold SessionRegistry.lookup SessionRegistry.setRow at *
  exact lookup_setRowAux id row' reg.rows (by rw [h]; rfl)

lemma setRowAux_found (id : String) (row : AppRow) (l : List (String × AppRow))
    (h : (l.find? (fun p => p.1 == id)).map (fun p => p.2) = some row) :
    setRowAux l id row = l := by
  induction l with
  | nil => rfl
  | cons p rest ih =>
    by_cases hp : p.1 = id
    · rw [List.find?_cons_of_pos _ (by simp [hp])] at h
      simp only [Option.map_some'] at h
      simp only [setRowAux, beq_iff_eq, hp, if_true, List.cons.injEq, and_true]
      cases p with
      | mk k r =>
        simp only at h hp
        injection h with h2
        subst hp
        subst h2
        rfl
    · rw [List.find?_cons_of_neg _ (by simp [hp])] at h
      simp only [setRowAux, beq_iff_eq, hp, if_false, List.cons.injEq, true_and]
      exact ih h

lemma setRow_self (reg : SessionRegistry) (id : String) (row : AppRow)
    (h : reg.lookup id = some row) : reg.setRow id row = reg := by
  unfold SessionRegistry.lookup at h
  unfold SessionRegistry.setRow
  cases reg with
  | mk rows =>
    simp only [SessionRegistry.mk.injEq]
    exact setRowAux_found id row rows h

/-- Every handler drops an event whose identity is absent from the registry. -/
lemma step_dropped (reg : SessionRegistry) (e : MixerEvent)
    (h : reg.lookup e.ident = none) : stepEvent reg e = (reg, [], []) := by
  cases e with
  | volumeChanged id v =>
    simp only [MixerEvent.ident] at h
    simp [stepEvent, onVolumeChanged, h]
  | muteChanged id m =>
    simp only [MixerEvent.ident] at h
    simp [stepEvent, onMuteChanged, h]
  | stateChanged id st =>
    simp only [MixerEvent.ident] at h
    simp [stepEvent, onStateChanged, h]

/-- After an `Expired` notification the identity is gone from the registry. -/
lemma expired_lookup_none (reg : SessionRegistry) (id : String) :
    ((onStateChanged reg id AudioSessionState.Expired).1).lookup id = none := by
  unfold onStateChanged
  cases h : reg.lookup id with
  | none => simpa using h
  | some row => simp [lookup_remove_self]

/-- Registry state after dispatching a volume notification to a live row:
the handler sees the new ground truth and only moves the slider. -/
lemma lookup_after_volume (reg : SessionRegistry) (id : String) (row : AppRow) (v : ℚ)
    (h : reg.lookup id = some row) :
    (onVolumeChanged reg id v).1.lookup id =
      some { row with
              volume := v,
              display := { row.display with volume_slider_state := v * 100 } } := by
  unfold onVolumeChanged
  rw [h]
  simp only [update_volume_confirmed]
  exact lookup_setRow_self reg id row _ h

/-- Registry state after dispatching a mute notification to a live row. -/
lemma lookup_after_mute (reg : SessionRegistry) (id : String) (row : AppRow) (m : Bool)
    (h : reg.lookup id = some row) :
    (onMuteChanged reg id m).lookup id =
      some (AppRow.update_mute { row with mute := m } m) := by
  unfold onMuteChanged
  rw [h]
  exact lookup_setRow_self reg id row _ h

/-- Display bookkeeping never touches the stored volume and mute fields. -/
lemma update_mute_fields (row : AppRow) (b : Bool) :
    (row.update_mute b).volume = row.volume ∧ (row.update_mute b).mute = row.mute := by
  unfold AppRow.update_mute
  by_cases h : b <;> simp [h]

/-- The payload of the last volume notification in a list, defaulting to `d`. -/
def lastVolD (es : List MixerEvent) (d : ℚ) : ℚ :=
  es.foldl (fun a e => match e with | .volumeChanged _ v => v | _ => a) d

/-- The payload of the last mute notification in a list, defaulting to `d`. -/
def lastMuteD (es : List MixerEvent) (d : Bool) : Bool :=
  es.foldl (fun a e => match e with | .muteChanged _ m => m | _ => a) d

/-- Recognizes volume and mute notifications addressed to `id`. -/
def volMuteFor (id : String) : MixerEvent → Bool
  | .volumeChanged i _ => i == id
  | .muteChanged i _ => i == id
  | .stateChanged _ _ => false

/-! ## Concrete data for witnesses -/

/-- A concrete display for the witnesses. -/
def sampleDisplay : Display :=
  { volume_slider_state := 50, mute_button_state := "🔊",
    mute_button_style := "Unmuted.TButton", status_line_style := "Active.TFrame",
    destroyed := false }

/-- The scenario row of spec §8: "app.exe", volume 0.50, unmuted, Active. -/
def sampleRow : AppRow :=
  { app_name := "app.exe", volume := 1 / 2, mute := false, display := sampleDisplay }

/-- A registry holding only the sample row. -/
def sampleReg : SessionRegistry := ⟨[("app.exe", sampleRow)]⟩

/-- The empty registry. -/
def emptyReg : SessionRegistry := ⟨[]⟩

/-! ## Claims -/

/-- C3: handling an external volume-changed notification never causes a write
back to the audio subsystem for that identity — the display refresh it
triggers (the slider set re-entering `_slide_volume`) issues zero subsystem
volume writes, so the notification direction cannot echo into the command
direction. -/
theorem volume_notification_no_echo (reg : SessionRegistry) (id : String) (v : ℚ) :
    (onVolumeChanged reg id v).2 = [] := by
  unfold onVolumeChanged
  cases h : reg.lookup id with
  | none => rfl
  | some row => simp [update_volume_confirmed]

/-- C9: for every status value other than `Active`, `Inactive` or `Expired`,
a state-change notification leaves the row (display and all) unchanged and,
at the router level, leaves the registry unchanged with no teardown and no
error. -/
theorem update_state_other_is_noop (reg : SessionRegistry) (id : String) (n : Int)
    (h0 : n ≠ AudioSessionState.Inactive) (h1 : n ≠ AudioSessionState.Active)
    (h2 : n ≠ AudioSessionState.Expired) :
    (∀ row : AppRow, row.update_state n = row) ∧ onStateChanged reg id n = (reg, []) := by
  have hrow : ∀ row : AppRow, AppRow.update_state row n = row := by
    intro row
    unfold AppRow.update_state
    rw [if_neg h0, if_neg h1, if_neg h2]
  refine ⟨hrow, ?_⟩
  unfold onStateChanged
  cases h : reg.lookup id with
  | none => rfl
  | some row =>
    simp only [hrow row, if_neg h2]
    rw [setRow_self reg id row h]

/-- C9 witness: status value 7 at the sample registry. -/
theorem update_state_other_is_noop_witness :
    (7 : Int) ≠ AudioSessionState.Inactive ∧ (7 : Int) ≠ AudioSessionState.Active ∧
      (7 : Int) ≠ AudioSessionState.Expired ∧
      ((∀ row : AppRow, row.update_state 7 = row) ∧
        onStateChanged sampleReg "app.exe" 7 = (sampleReg, [])) :=
  ⟨by decide, by decide, by decide,
    update_state_other_is_noop sampleReg "app.exe" 7 (by decide) (by decide) (by decide)⟩

/-- C10: the display position and the stored volume are related by the fixed
linear map ×100 in both directions — a volume notification with payload `v`
puts the slider at exactly `v * 100`, a slide to position `p` requests the
volume `p / 100`, and a slide to the position produced by a confirmed volume
`v` requests exactly `v` again. -/
theorem volume_display_roundtrip (row : AppRow) (v p : ℚ) :
    ((row.update_volume v).1).display.volume_slider_state = v * 100 ∧
    row.slide_volume p =
      (if row.volume = p / 100 then (row, [])
       else ({ row with volume := p / 100 }, [SubsysCall.writeVolume (p / 100)])) ∧
    ((row.slide_volume (v * 100)).1).volume = v := by
  refine ⟨?_, ?_, ?_⟩
  · simp only [AppRow.update_volume, AppRow.slide_volume]
    split <;> rfl
  · unfold AppRow.slide_volume
    by_cases h : row.volume = p / 100
    · simp [h]
    · simp [h]
  · unfold AppRow.slide_volume
    rw [hundredth]
    by_cases h : row.volume = v
    · simp [h]
    · simp [h]

/-- C4: a user command for an identity absent from the registry fails with
`SessionGone`, performs no audio-subsystem call, and leaves the registry
untouched (the failure is silently dropped). -/
theorem session_gone_silent (reg : SessionRegistry) (id : String) (value : ℚ)
    (h : reg.lookup id = none) :
    CommandGateway.set_volume reg id value = (reg, [], Except.error CmdError.SessionGone) ∧
    CommandGateway.toggle_mute reg id = (reg, [], Except.error CmdError.SessionGone) := by
  unfold CommandGateway.set_volume CommandGateway.toggle_mute
  rw [h]
  exact ⟨rfl, rfl⟩

/-- C4 witness: the empty registry with identity "app.exe". -/
theorem session_gone_silent_witness :
    emptyReg.lookup "app.exe" = none ∧
    (CommandGateway.set_volume emptyReg "app.exe" 73 =
        (emptyReg, [], Except.error CmdError.SessionGone) ∧
      CommandGateway.toggle_mute emptyReg "app.exe" =
        (emptyReg, [], Except.error CmdError.SessionGone)) :=
  ⟨rfl, session_gone_silent emptyReg "app.exe" 73 rfl⟩

/-- C5: a requested volume equal (after the `/ 100` quantization used for
comparison) to the session's current stored volume makes `set_volume` a
no-op: zero subsystem calls and all state unchanged. -/
theorem set_volume_noop_on_equal (reg : SessionRegistry) (id : String) (row : AppRow)
    (value : ℚ) (h : reg.lookup id = some row) (heq : value / 100 = row.volume) :
    CommandGateway.set_volume reg id value = (reg, [], Except.ok ()) := by
  unfold CommandGateway.set_volume
  rw [h]
  simp only [AppRow.slide_volume, heq, ne_eq, not_true_eq_false, if_false, reduceIte]
  rw [setRow_self reg id row h]

/-- C5 witness: slider position 50 against stored volume 1/2. -/
theorem set_volume_noop_on_equal_witness :
    sampleReg.lookup "app.exe" = some sampleRow ∧ (50 : ℚ) / 100 = sampleRow.volume ∧
      CommandGateway.set_volume sampleReg "app.exe" 50 = (sampleReg, [], Except.ok ()) :=
  ⟨rfl, by norm_num [sampleRow],
    set_volume_noop_on_equal sampleReg "app.exe" sampleRow 50 rfl (by norm_num [sampleRow])⟩

/-- C6 counterexample: `set_volume` does not clamp. At slider position 150
(requested volume 1.5) the gateway writes 3/2 to the audio subsystem, a
value outside [0.0, 1.0], refuting the claim as stated. -/
theorem set_volume_no_clamp_cex :
    (CommandGateway.set_volume sampleReg "app.exe" 150).2.1 =
      [SubsysCall.writeVolume (3 / 2)] ∧ ¬((3 : ℚ) / 2 ≤ 1) := by
  have hl : sampleReg.lookup "app.exe" = some sampleRow := rfl
  constructor
  · unfold CommandGateway.set_volume
    rw [hl]
    simp only [AppRow.slide_volume]
    norm_num [sampleRow]
  · norm_num

/-- C6 amended: `set_volume` performs no clamping, but for every slider
position within the widget's range [0, 100] — which the `Scale` guarantees
by construction — every value written to the subsystem lies in [0.0, 1.0];
no input makes it error. -/
theorem set_volume_in_range_for_slider_inputs (reg : SessionRegistry) (id : String)
    (value : ℚ) (h0 : 0 ≤ value) (h1 : value ≤ 100) :
    ∀ c ∈ (CommandGateway.set_volume reg id value).2.1,
      ∃ w, c = SubsysCall.writeVolume w ∧ 0 ≤ w ∧ w ≤ 1 := by
  have key : ∀ row : AppRow, ∀ c ∈ (AppRow.slide_volume row value).2,
      ∃ w, c = SubsysCall.writeVolume w ∧ 0 ≤ w ∧ w ≤ 1 := by
    intro row c hc
    simp only [AppRow.slide_volume] at hc
    by_cases hg : row.volume = value / 100
    · simp [hg] at hc
    · simp only [ne_eq, hg, not_false_eq_true, if_true, reduceIte, List.mem_singleton] at hc
      refine ⟨value / 100, hc, div_nonneg h0 (by norm_num), ?_⟩
      rw [div_le_one (by norm_num)]
      exact h1
  unfold CommandGateway.set_volume
  cases h : reg.lookup id with
  | none =>
    intro c hc
    simp at hc
  | some row => exact fun c hc => key row c hc

/-- C6 amended witness: slider position 73 at the sample registry. -/
theorem set_volume_in_range_witness :
    (0 : ℚ) ≤ 73 ∧ (73 : ℚ) ≤ 100 ∧
      ∀ c ∈ (CommandGateway.set_volume sampleReg "app.exe" 73).2.1,
        ∃ w, c = SubsysCall.writeVolume w ∧ 0 ≤ w ∧ w ≤ 1 :=
  ⟨by norm_num, by norm_num,
    set_volume_in_range_for_slider_inputs sampleReg "app.exe" 73 (by norm_num) (by norm_num)⟩

/-- C7: removal is idempotent — `remove` twice equals `remove` once, a second
`Expired` notification emits nothing, and across a pair of `Expired`
notifications the teardown is emitted exactly once when the identity was
present and never otherwise. -/
theorem remove_idempotent_teardown_once (reg : SessionRegistry) (id : String) :
    (reg.remove id).remove id = reg.remove id ∧
    (onStateChanged (onStateChanged reg id AudioSessionState.Expired).1 id
        AudioSessionState.Expired).2 = [] ∧
    ((onStateChanged reg id AudioSessionState.Expired).2 ++
        (onStateChanged (onStateChanged reg id AudioSessionState.Expired).1 id
          AudioSessionState.Expired).2).length =
      (if (reg.lookup id).isSome then 1 else 0) := by
  have hsecond :
      (onStateChanged (onStateChanged reg id AudioSessionState.Expired).1 id
        AudioSessionState.Expired).2 = [] := by
    have hnone := expired_lookup_none reg id
    unfold onStateChanged
    unfold onStateChanged at hnone
    rw [hnone]
  refine ⟨?_, hsecond, ?_⟩
  · unfold SessionRegistry.remove
    simp [List.filter_filter]
  · rw [hsecond, List.append_nil]
    unfold onStateChanged
    cases h : reg.lookup id with
    | none => rfl
    | some row => rfl

/-- C8: for a session present in the registry, `toggle_mute` reads the
current muted value, issues exactly the inverted value to the subsystem,
returns that inverted value, and immediately applies it to the display
(optimistic update of the button icon). -/
theorem toggle_mute_inverts (reg : SessionRegistry) (id : String) (row : AppRow)
    (h : reg.lookup id = some row) :
    CommandGateway.toggle_mute reg id =
      (reg.setRow id (AppRow.update_mute { row with mute := !row.mute } (!row.mute)),
        [SubsysCall.writeMute (!row.mute)], Except.ok (!row.mute)) ∧
    ((CommandGateway.toggle_mute reg id).1.lookup id).map (fun r => r.mute) =
      some (!row.mute) ∧
    ((CommandGateway.toggle_mute reg id).1.lookup id).map
        (fun r => r.display.mute_button_state) =
      some (if !row.mute then "🔈" else "🔊") := by
  have hgw : CommandGateway.toggle_mute reg id =
      (reg.setRow id (AppRow.update_mute { row with mute := !row.mute } (!row.mute)),
        [SubsysCall.writeMute (!row.mute)], Except.ok (!row.mute)) := by
    unfold CommandGateway.toggle_mute
    rw [h]
    rfl
  have hlook : (CommandGateway.toggle_mute reg id).1.lookup id =
      some (AppRow.update_mute { row with mute := !row.mute } (!row.mute)) := by
    rw [hgw]
    exact lookup_setRow_self reg id row _ h
  refine ⟨hgw, ?_, ?_⟩
  · rw [hlook]
    by_cases hm : row.mute <;> simp [AppRow.update_mute, hm]
  · rw [hlook]
    by_cases hm : row.mute <;> simp [AppRow.update_mute, hm]

/-- C8 witness: at the sample row (unmuted) the new value is `true` and the
display icon flips to the muted icon. -/
theorem toggle_mute_inverts_witness :
    ((CommandGateway.toggle_mute sampleReg "app.exe").1.lookup "app.exe").map
        (fun r => r.mute) = some true ∧
    ((CommandGateway.toggle_mute sampleReg "app.exe").1.lookup "app.exe").map
        (fun r => r.display.mute_button_state) = some "🔈" :=
  (toggle_mute_inverts sampleReg "app.exe" sampleRow rfl).2

/-- C1: `Expired` is terminal. After an `Expired` notification is processed
the identity is gone from the registry, and any subsequent event for that
identity leaves the registry (hence every display) unchanged and produces no
subsystem call and no teardown — it is dropped without error. -/
theorem expired_terminal (reg : SessionRegistry) (id : String) (e : MixerEvent)
    (h : e.ident = id) :
    ((onStateChanged reg id AudioSessionState.Expired).1).lookup id = none ∧
    stepEvent (onStateChanged reg id AudioSessionState.Expired).1 e =
      ((onStateChanged reg id AudioSessionState.Expired).1, [], []) := by
  refine ⟨expired_lookup_none reg id, ?_⟩
  apply step_dropped
  rw [h]
  exact expired_lookup_none reg id

/-- C1 witness: after "app.exe" expires, a late volume notification for it is
a no-op. -/
theorem expired_terminal_witness :
    (MixerEvent.volumeChanged "app.exe" (7 / 10)).ident = "app.exe" ∧
    (((onStateChanged sampleReg "app.exe" AudioSessionState.Expired).1).lookup "app.exe" =
        none ∧
      stepEvent (onStateChanged sampleReg "app.exe" AudioSessionState.Expired).1
          (MixerEvent.volumeChanged "app.exe" (7 / 10)) =
        ((onStateChanged sampleReg "app.exe" AudioSessionState.Expired).1, [], [])) :=
  ⟨rfl, expired_terminal sampleReg "app.exe" (MixerEvent.volumeChanged "app.exe" (7 / 10)) rfl⟩

/-- C2: ground truth wins. Processing any sequence of volume/mute
notifications for a live identity, in delivery order, leaves the stored
volume equal to the last volume payload and the stored mute equal to the
last mute payload (each defaulting to the initial value when no notification
of that kind occurs). -/
theorem ground_truth_wins (id : String) (es : List MixerEvent) :
    ∀ (reg : SessionRegistry) (row0 : AppRow), reg.lookup id = some row0 →
      es.all (volMuteFor id) = true →
      ∃ row, (runEvents reg es).lookup id = some row ∧
        row.volume = lastVolD es row0.volume ∧ row.mute = lastMuteD es row0.mute := by
  induction es with
  | nil =>
    intro reg row0 h _
    exact ⟨row0, h, rfl, rfl⟩
  | cons e rest ih =>
    intro reg row0 h hall
    simp only [List.all_cons, Bool.and_eq_true] at hall
    obtain ⟨he, hrest⟩ := hall
    cases e with
    | volumeChanged i v =>
      simp only [volMuteFor, beq_iff_eq] at he
      subst he
      have h1 := lookup_after_volume reg i row0 v h
      obtain ⟨row, hr, hv, hm⟩ := ih (onVolumeChanged reg i v).1 _ h1 hrest
      refine ⟨row, hr, ?_, ?_⟩
      · rw [hv]
        simp [lastVolD]
      · rw [hm]
        simp [lastMuteD]
    | muteChanged i m =>
      simp only [volMuteFor, beq_iff_eq] at he
      subst he
      have h1 := lookup_after_mute reg i row0 m h
      obtain ⟨row, hr, hv, hm⟩ := ih (onMuteChanged reg i m) _ h1 hrest
      refine ⟨row, hr, ?_, ?_⟩
      · rw [hv]
        simp [lastVolD, (update_mute_fields { row0 with mute := m } m).1]
      · rw [hm]
        simp [lastMuteD, (update_mute_fields { row0 with mute := m } m).2]
    | stateChanged i st =>
      simp [volMuteFor] at he

/-- C2 notification sequence for the witness: the §8 scenario — volumes 0.40
then 0.42 and a mute — delivered to "app.exe". -/
def sampleEvents : List MixerEvent :=
  [MixerEvent.volumeChanged "app.exe" (2 / 5),
   MixerEvent.volumeChanged "app.exe" (21 / 50),
   MixerEvent.muteChanged "app.exe" true]

/-- C2 witness: after the sample sequence the stored volume is 0.42 (the last
volume payload, never 0.40) and the stored mute is `true`. -/
theorem ground_truth_wins_witness :
    sampleReg.lookup "app.exe" = some sampleRow ∧
    sampleEvents.all (volMuteFor "app.exe") = true ∧
    ∃ row, (runEvents sampleReg sampleEvents).lookup "app.exe" = some row ∧
      row.volume = lastVolD sampleEvents sampleRow.volume ∧
      row.mute = lastMuteD sampleEvents sampleRow.mute :=
  ⟨rfl, rfl, ground_truth_wins "app.exe" sampleEvents sampleReg sampleRow rfl rfl⟩

end MagicMixer
